import Mathlib

/-!
Verification of the ULearningCWAuto hierarchy reconciliation and
synchronization engine against its natural-language specification.

The Lean definitions below are a shallow embedding of the Python source:

* Python dicts (insertion ordered, int-keyed) become association lists
  `List (Int × α)`; lookup returns the first entry with a matching key,
  update rewrites the value in place, iteration is list order.
* `src/models/courseware.py` and `src/models/course.py` give the five-level
  tree `ModelCourse → ModelTextbook → CoursewareChapter → CoursewareSection →
  CoursewarePage → Element` and the `prune` methods (which iterate over a
  copy of the dict and pop entries, i.e. an order-preserving filter).
* `src/services/data_manager.py` gives `parse_study_record_info`,
  `parse_chapter_info` and `build_sync_study_record_request`.  In-place
  mutation of the tree becomes a functional update; `try/except` around a
  body that can raise `KeyError` becomes explicit `Option`-style flow that
  returns the partially updated tree together with a success flag.
* `src/services/http_client.py` retry logic and the report-submission loop
  of `src/services/courseware_manager.py` are embedded as recursive
  functions over an abstract stream of attempt outcomes.
* `random.randint`, `random.uniform` and `time.time()` become an abstract
  oracle consulted at successive ticks; `RandOracle.Valid` records exactly
  the range guarantees of the Python library calls (`randint a b ∈ [a,b]`
  when `a ≤ b`, `uniform a b ∈ [a,b]`, `time.time() ≥ 0`).  Float values
  are modelled as exact rationals; `int(x)` is truncation toward zero.
-/

namespace ULCW

/-- Lookup in a Python dict modelled as an association list: first entry
whose key matches. -/
def dictLookup {α : Type} : List (Int × α) → Int → Option α
  | [], _ => none
  | (k0, v) :: rest, k => if k0 = k then some v else dictLookup rest k

/-- In-place mutation of the value stored under key `k` (Python mutates the
object obtained by `d[k]`). -/
def dictUpdate {α : Type} (l : List (Int × α)) (k : Int) (f : α → α) :
    List (Int × α) :=
  l.map (fun pr => if pr.1 = k then (pr.1, f pr.2) else pr)

/-- Video element (`ElementVideo` in `src/models/courseware.py`). -/
structure ElementVideo where
  video_id : Int
  video_length : Int
deriving DecidableEq

/-- Single question inside a question element
(`ElementQuestion.Question`). -/
structure ElementQuestionQuestion where
  question_id : Int
  question_score : Int
  question_content : String
  question_answer_list : List String
deriving DecidableEq

/-- Question element (`ElementQuestion`). -/
structure ElementQuestion where
  questions : List ElementQuestionQuestion
deriving DecidableEq

/-- Document element (`ElementDocumen`; the source misspells the name). -/
structure ElementDocumen where
  document_content : String
deriving DecidableEq

/-- Plain-text element (`ElementContent`). -/
structure ElementContent where
  content_content : String
deriving DecidableEq

/-- Closed union of the four element variants a `CoursewarePage` may
store. -/
inductive Element where
  | video (v : ElementVideo)
  | question (q : ElementQuestion)
  | documen (d : ElementDocumen)
  | content (c : ElementContent)
deriving DecidableEq

/-- Page node (`CoursewarePage`): two distinct identifiers, a content type
code (5 doc/text, 6 video, 7 question), a completion flag and the stored
elements. -/
structure CoursewarePage where
  page_id : Int
  page_relation_id : Int
  page_name : String
  page_content_type : Int
  is_complete : Bool
  elements : List Element
deriving DecidableEq

/-- Section node (`CoursewareSection`): pages keyed by `page_id`. -/
structure CoursewareSection where
  section_id : Int
  section_name : String
  pages : List (Int × CoursewarePage)
deriving DecidableEq

/-- Clearing of finished pages (`CoursewareSection.prune`): iterate over a
copy of the dict and pop every page whose `is_complete` is set. -/
def CoursewareSection.prune (s : CoursewareSection) : CoursewareSection :=
  { s with pages := s.pages.filter (fun pr => !pr.2.is_complete) }

/-- Chapter node (`CoursewareChapter`): sections keyed by `section_id`. -/
structure CoursewareChapter where
  chapter_id : Int
  chapter_name : String
  sections : List (Int × CoursewareSection)
deriving DecidableEq

/-- Chapter pruning (`CoursewareChapter.prune`): optionally prune each
section, then pop every section left with an empty page dict. -/
def CoursewareChapter.prune (c : CoursewareChapter) (remove_complete : Bool) :
    CoursewareChapter :=
  let kept :=
    List.filter (fun pr => !pr.2.pages.isEmpty)
      (List.map (fun pr => (pr.1, if remove_complete then pr.2.prune else pr.2))
        c.sections)
  { c with sections := kept }

/-- Textbook node (`ModelTextbook` in `src/models/course.py`). -/
structure ModelTextbook where
  textbook_id : Int
  textbook_name : String
  status : Int
  limit : Int
  chapters : List (Int × CoursewareChapter)
deriving DecidableEq

/-- Textbook pruning (`ModelTextbook.prune`): prune each chapter, then pop
every chapter left with an empty section dict. -/
def ModelTextbook.prune (t : ModelTextbook) (remove_complete : Bool) :
    ModelTextbook :=
  let kept :=
    List.filter (fun pr => !pr.2.sections.isEmpty)
      (List.map (fun pr => (pr.1, pr.2.prune remove_complete)) t.chapters)
  { t with chapters := kept }

/-- Course node (`ModelCourse`). -/
structure ModelCourse where
  course_id : Int
  course_name : String
  class_id : Int
  class_user_id : Int
  textbooks : List (Int × ModelTextbook)
deriving DecidableEq

/-- Course pruning (`ModelCourse.prune`): prune each textbook, then pop
every textbook left with an empty chapter dict. -/
def ModelCourse.prune (c : ModelCourse) (remove_complete : Bool) :
    ModelCourse :=
  let kept :=
    List.filter (fun pr => !pr.2.chapters.isEmpty)
      (List.map (fun pr => (pr.1, pr.2.prune remove_complete)) c.textbooks)
  { c with textbooks := kept }

/-- Harvested invariant of pruned trees: no container is left with zero
children. -/
def ModelCourse.noEmptyContainers (c : ModelCourse) : Prop :=
  ∀ tb ∈ c.textbooks, tb.2.chapters ≠ [] ∧
    ∀ ch ∈ tb.2.chapters, ch.2.sections ≠ [] ∧
      ∀ s ∈ ch.2.sections, s.2.pages ≠ []

/-- Harvested invariant: no completed page remains anywhere in the tree. -/
def ModelCourse.noCompletePages (c : ModelCourse) : Prop :=
  ∀ tb ∈ c.textbooks, ∀ ch ∈ tb.2.chapters, ∀ s ∈ ch.2.sections,
    ∀ p ∈ s.2.pages, p.2.is_complete = false

/-- Generic shape of one pruning level: map a child-pruning function over
the dict, then drop entries failing the keep predicate.  Applying the level
twice equals applying it once provided child pruning is idempotent. -/
theorem pruneLevel_idem {α : Type} (f : α → α) (P : α → Bool)
    (hf : ∀ x, f (f x) = f x) (l : List α) :
    List.filter P (List.map f (List.filter P (List.map f l))) =
      List.filter P (List.map f l) := by
  have hmem : ∀ x ∈ List.filter P (List.map f l), f x = x := by
    intro x hx
    rcases List.mem_map.mp (List.mem_of_mem_filter hx) with ⟨y, _, rfl⟩
    exact hf y
  have h1 : List.map f (List.filter P (List.map f l)) =
      List.filter P (List.map f l) := by
    calc List.map f (List.filter P (List.map f l))
        = List.map id (List.filter P (List.map f l)) := List.map_congr_left hmem
      _ = List.filter P (List.map f l) := List.map_id _
  rw [h1, List.filter_filter]
  exact List.filter_congr (by intro x _; simp)

theorem sectionPrune_idem (s : CoursewareSection) :
    s.prune.prune = s.prune := by
  simp only [CoursewareSection.prune, List.filter_filter]
  congr 1
  exact List.filter_congr (by intro x _; simp)

theorem chapterPrune_idem (c : CoursewareChapter) :
    (c.prune true).prune true = c.prune true := by
  simp only [CoursewareChapter.prune, if_pos]
  congr 1
  exact pruneLevel_idem _ _
    (fun pr => by simp [sectionPrune_idem]) c.sections

theorem textbookPrune_idem (t : ModelTextbook) :
    (t.prune true).prune true = t.prune true := by
  simp only [ModelTextbook.prune]
  congr 1
  exact pruneLevel_idem _ _
    (fun pr => by simp [chapterPrune_idem]) t.chapters

theorem coursePrune_idem (c : ModelCourse) :
    (c.prune true).prune true = c.prune true := by
  simp only [ModelCourse.prune]
  congr 1
  exact pruneLevel_idem _ _
    (fun pr => by simp [textbookPrune_idem]) c.textbooks

theorem ModelCourse.prune_noEmptyContainers (c : ModelCourse) (rc : Bool) :
    (c.prune rc).noEmptyContainers := by
  intro tb htb
  simp only [ModelCourse.prune, List.mem_filter, List.mem_map] at htb
  rcases htb with ⟨⟨tb0, _, rfl⟩, htbP⟩
  refine ⟨by simpa using htbP, ?_⟩
  intro ch hch
  simp only [ModelTextbook.prune, List.mem_filter, List.mem_map] at hch
  rcases hch with ⟨⟨ch0, _, rfl⟩, hchP⟩
  refine ⟨by simpa using hchP, ?_⟩
  intro s hs
  simp only [CoursewareChapter.prune, List.mem_filter, List.mem_map] at hs
  rcases hs with ⟨⟨s0, _, rfl⟩, hsP⟩
  simpa using hsP

theorem ModelCourse.prune_noCompletePages (c : ModelCourse) :
    (c.prune true).noCompletePages := by
  intro tb htb ch hch s hs p hp
  simp only [ModelCourse.prune, List.mem_filter, List.mem_map] at htb
  rcases htb with ⟨⟨tb0, _, rfl⟩, -⟩
  simp only [ModelTextbook.prune, List.mem_filter, List.mem_map] at hch
  rcases hch with ⟨⟨ch0, _, rfl⟩, -⟩
  simp only [CoursewareChapter.prune, List.mem_filter, List.mem_map,
    if_pos] at hs
  rcases hs with ⟨⟨s0, _, rfl⟩, -⟩
  simp only [CoursewareSection.prune, List.mem_filter] at hp
  simpa using hp.2

/-- Pages of the shared demo course: `pageA` incomplete, `pageB` complete. -/
def pageA : CoursewarePage := ⟨40, 1, "pageA", 5, false, []⟩

def pageB : CoursewarePage := ⟨41, 2, "pageB", 5, true, []⟩

def demoSection : CoursewareSection := ⟨30, "sec", [(40, pageA), (41, pageB)]⟩

def demoChapter : CoursewareChapter := ⟨20, "ch", [(30, demoSection)]⟩

def demoTextbook : ModelTextbook := ⟨10, "tb", 1, 0, [(20, demoChapter)]⟩

def demoCourse : ModelCourse := ⟨100, "course", 7, 8, [(10, demoTextbook)]⟩

/-- C5: `prune` with `removeComplete = true` is idempotent on every tree;
`prune` always leaves no container (Section/Chapter/Textbook) with zero
children, bottom-up; and with `removeComplete = true` it additionally
removes every completed leaf Page. -/
theorem c5_prune_removeComplete_idempotent (course : ModelCourse) :
    (course.prune true).prune true = course.prune true ∧
    (∀ rc : Bool, (course.prune rc).noEmptyContainers) ∧
    (course.prune true).noCompletePages :=
  ⟨coursePrune_idem course,
   fun rc => ModelCourse.prune_noEmptyContainers course rc,
   ModelCourse.prune_noCompletePages course⟩

theorem c5_prune_removeComplete_idempotent_witness :
    (demoCourse.prune true).prune true = demoCourse.prune true :=
  (c5_prune_removeComplete_idempotent demoCourse).1

theorem dictLookup_ne_nil {α : Type} {l : List (Int × α)} {k : Int} {v : α}
    (h : dictLookup l k = some v) : l ≠ [] := by
  intro h0
  subst h0
  simp [dictLookup] at h

theorem not_isEmpty_of_ne_nil {α : Type} {l : List α} (h : l ≠ []) :
    (!l.isEmpty) = true := by
  cases l with
  | nil => exact absurd rfl h
  | cons a t => rfl

theorem dictLookup_filter {α : Type} (P : α → Bool) {l : List (Int × α)}
    {k : Int} {v : α} (hl : dictLookup l k = some v) (hP : P v = true) :
    dictLookup (List.filter (fun pr => P pr.2) l) k = some v := by
  induction l with
  | nil => simp [dictLookup] at hl
  | cons hd tl ih =>
    by_cases hk : hd.1 = k
    · have hv : hd.2 = v := by simpa [dictLookup, hk] using hl
      subst hv
      simp [dictLookup, hk, hP]
    · have hl2 : dictLookup tl k = some v := by
        simpa [dictLookup, hk] using hl
      by_cases hPh : P hd.2
      · simp [dictLookup, hk, hPh, ih hl2]
      · simp [dictLookup, hPh, ih hl2]

theorem dictLookup_filter_map {α : Type} (g : α → α) (P : α → Bool)
    {l : List (Int × α)} {k : Int} {v : α}
    (hl : dictLookup l k = some v) (hP : P (g v) = true) :
    dictLookup
      (List.filter (fun pr => P pr.2)
        (List.map (fun pr => (pr.1, g pr.2)) l)) k = some (g v) := by
  induction l with
  | nil => simp [dictLookup] at hl
  | cons hd tl ih =>
    by_cases hk : hd.1 = k
    · have hv : hd.2 = v := by simpa [dictLookup, hk] using hl
      subst hv
      simp [dictLookup, hk, hP]
    · have hl2 : dictLookup tl k = some v := by
        simpa [dictLookup, hk] using hl
      by_cases hPh : P (g hd.2)
      · simp [dictLookup, hk, hPh, ih hl2]
      · simp [dictLookup, hPh, ih hl2]

/-- Path lookup textbook → chapter → section, mirroring the successive
dict indexing steps of `DataManager`. -/
def sectionLookup (c : ModelCourse) (tbid cid sid : Int) :
    Option CoursewareSection :=
  (dictLookup c.textbooks tbid).bind (fun tb =>
    (dictLookup tb.chapters cid).bind (fun ch =>
      dictLookup ch.sections sid))

/-- Path lookup down to a single page. -/
def pageLookup (c : ModelCourse) (tbid cid sid pid : Int) :
    Option CoursewarePage :=
  (sectionLookup c tbid cid sid).bind (fun s => dictLookup s.pages pid)

/-- C10: pruning never removes an incomplete Page — for both values of
`removeComplete`, a Page with `is_complete = false` reachable under a given
textbook/chapter/section path before `prune` is still reachable, unchanged,
under the same path afterwards (hence its enclosing containers survive). -/
theorem c10_prune_keeps_incomplete_pages (course : ModelCourse) (rc : Bool)
    (tbid cid sid pid : Int) (p : CoursewarePage)
    (hp : pageLookup course tbid cid sid pid = some p)
    (hinc : p.is_complete = false) :
    pageLookup (course.prune rc) tbid cid sid pid = some p := by
  unfold pageLookup sectionLookup at hp
  rcases h1 : dictLookup course.textbooks tbid with _ | tb
  · simp [h1] at hp
  rcases h2 : dictLookup tb.chapters cid with _ | ch
  · simp [h1, h2] at hp
  rcases h3 : dictLookup ch.sections sid with _ | s
  · simp [h1, h2, h3] at hp
  have h4 : dictLookup s.pages pid = some p := by
    simpa [h1, h2, h3] using hp
  have h5 : dictLookup (if rc then s.prune else s).pages pid = some p := by
    cases rc with
    | false => simpa using h4
    | true =>
      simp only [if_pos, CoursewareSection.prune]
      exact dictLookup_filter (fun q => !q.is_complete) h4 (by simp [hinc])
  have h6 :
      dictLookup (ch.prune rc).sections sid = some (if rc then s.prune else s) := by
    simp only [CoursewareChapter.prune]
    exact dictLookup_filter_map (fun x => if rc then x.prune else x)
      (fun x => !x.pages.isEmpty) h3
      (not_isEmpty_of_ne_nil (dictLookup_ne_nil h5))
  have h7 : dictLookup (tb.prune rc).chapters cid = some (ch.prune rc) := by
    simp only [ModelTextbook.prune]
    exact dictLookup_filter_map (fun x => x.prune rc)
      (fun x => !x.sections.isEmpty) h2
      (not_isEmpty_of_ne_nil (dictLookup_ne_nil h6))
  have h8 :
      dictLookup (course.prune rc).textbooks tbid = some (tb.prune rc) := by
    simp only [ModelCourse.prune]
    exact dictLookup_filter_map (fun x => x.prune rc)
      (fun x => !x.chapters.isEmpty) h1
      (not_isEmpty_of_ne_nil (dictLookup_ne_nil h7))
  unfold pageLookup sectionLookup
  rw [h8]
  simp only [Option.some_bind]
  rw [h7]
  simp only [Option.some_bind]
  rw [h6]
  simp only [Option.some_bind]
  exact h5

/-- Per-page entry of a study-record response
(`StudyRecordAPIResponse.PageStudyRecordDTO`): `pageid` is the page
relation id and `complete` a completion flag integer. -/
structure PageStudyRecordDTO where
  pageid : Int
  complete : Int
deriving DecidableEq

/-- Study-record response (`StudyRecordAPIResponse`): identifies a chapter
(`node_id`) and a section (`item_id`) and lists per-page records. -/
structure StudyRecordAPIResponse where
  item_id : Int
  node_id : Int
  pageStudyRecordDTOList : List PageStudyRecordDTO
deriving DecidableEq

/-- Body of the inner matching loop of
`DataManager.parse_study_record_info`: when the tree page's
`page_relation_id` equals the record entry's `pageid`, its `is_complete`
is set to `bool(complete)`. -/
def applyEntryToPage (e : PageStudyRecordDTO) (p : CoursewarePage) :
    CoursewarePage :=
  if p.page_relation_id = e.pageid then
    { p with is_complete := decide (e.complete ≠ 0) }
  else p

/-- Both loops of `DataManager.parse_study_record_info`: for each record
entry in order, sweep the section's pages and update every relation-id
match in place. -/
def applyEntriesPages (pages : List (Int × CoursewarePage))
    (entries : List PageStudyRecordDTO) : List (Int × CoursewarePage) :=
  entries.foldl
    (fun ps e => ps.map (fun pr => (pr.1, applyEntryToPage e pr.2))) pages

/-- Completion flag a page with relation id `r` and current flag `old` ends
up with after the sweep: each matching entry overwrites, so the last
matching entry wins. -/
def finalFlag (r : Int) (old : Bool) : List PageStudyRecordDTO → Bool
  | [] => old
  | e :: rest =>
    finalFlag r (if r = e.pageid then decide (e.complete ≠ 0) else old) rest

/-- Page as it stands after the sweep: only `is_complete` can change, and
it becomes the `finalFlag` of the record entries against the page's
relation id. -/
def setFlag (p : CoursewarePage) (entries : List PageStudyRecordDTO) :
    CoursewarePage :=
  { p with is_complete :=
      finalFlag p.page_relation_id p.is_complete entries }

/-- Functional rendering of the in-place mutation of one section's page
dict reached through `textbooks[tb_id].chapters[node_id].sections[item_id]`. -/
def updateSectionPages (course : ModelCourse) (tbid cid sid : Int)
    (f : List (Int × CoursewarePage) → List (Int × CoursewarePage)) :
    ModelCourse :=
  { course with textbooks :=
      dictUpdate course.textbooks tbid (fun tb =>
        { tb with chapters :=
            dictUpdate tb.chapters cid (fun ch =>
              { ch with sections :=
                  dictUpdate ch.sections sid (fun s =>
                    { s with pages := f s.pages }) }) }) }

/-- Embedding of `DataManager.parse_study_record_info`: looks up
chapter/section from the record's identifiers (a `KeyError` is caught and
turned into `False` before any mutation), then sweeps the record entries
over that section's pages.  The returned `Bool` is the Python return
value. -/
def parse_study_record_info (course : ModelCourse) (textbook_id : Int)
    (sri : StudyRecordAPIResponse) : ModelCourse × Bool :=
  match sectionLookup course textbook_id sri.node_id sri.item_id with
  | none => (course, false)
  | some _ =>
    (updateSectionPages course textbook_id sri.node_id sri.item_id
      (fun pages => applyEntriesPages pages sri.pageStudyRecordDTOList), true)

theorem applyEntriesPages_eq_map (entries : List PageStudyRecordDTO)
    (pages : List (Int × CoursewarePage)) :
    applyEntriesPages pages entries =
      pages.map (fun pr =>
        (pr.1, entries.foldl (fun p e => applyEntryToPage e p) pr.2)) := by
  induction entries generalizing pages with
  | nil =>
    simp only [applyEntriesPages, List.foldl_nil]
    exact (List.map_id _).symm
  | cons e rest ih =>
    simp only [applyEntriesPages, List.foldl_cons] at ih ⊢
    rw [ih, List.map_map]
    rfl

theorem applyEntryToPage_relation (e : PageStudyRecordDTO)
    (p : CoursewarePage) :
    (applyEntryToPage e p).page_relation_id = p.page_relation_id := by
  unfold applyEntryToPage
  by_cases h : p.page_relation_id = e.pageid <;> simp [h]

theorem finalFlag_cons (r : Int) (old : Bool) (e : PageStudyRecordDTO)
    (rest : List PageStudyRecordDTO) :
    finalFlag r old (e :: rest) =
      finalFlag r (if r = e.pageid then decide (e.complete ≠ 0) else old)
        rest := rfl

theorem foldl_applyEntry_eq_finalFlag (entries : List PageStudyRecordDTO)
    (p : CoursewarePage) :
    entries.foldl (fun q e => applyEntryToPage e q) p = setFlag p entries := by
  induction entries generalizing p with
  | nil => simp [setFlag, finalFlag]
  | cons e rest ih =>
    rw [List.foldl_cons, ih]
    unfold setFlag applyEntryToPage
    by_cases h : p.page_relation_id = e.pageid <;>
      simp [h, finalFlag_cons]

theorem finalFlag_append_last (r : Int) (old : Bool)
    (es : List PageStudyRecordDTO) (e : PageStudyRecordDTO) :
    finalFlag r old (es ++ [e]) =
      if r = e.pageid then decide (e.complete ≠ 0) else finalFlag r old es := by
  induction es generalizing old with
  | nil => simp [finalFlag]
  | cons e0 rest ih => simp [finalFlag, ih]

theorem finalFlag_of_no_match (r : Int) (old : Bool)
    (es : List PageStudyRecordDTO) (h : ∀ e ∈ es, r ≠ e.pageid) :
    finalFlag r old es = old := by
  induction es generalizing old with
  | nil => rfl
  | cons e rest ih =>
    have he : r ≠ e.pageid := h e (by simp)
    simp only [finalFlag, if_neg he]
    exact ih old (fun x hx => h x (by simp [hx]))

/-- C1 (amended): `parse_study_record_info` matches tree Pages of the
located section by `page_relation_id` only (never by `page_id`) and sets
each page's `is_complete` to `bool(complete)` of the LAST record entry
whose `pageid` equals that relation id; a page whose relation id appears
in no entry is left unchanged.  The original claim that a flag-1 entry
always forces `is_complete = true` fails when a later duplicate entry
carries flag 0. -/
theorem c1_parse_study_record_last_entry_wins (course : ModelCourse)
    (tbid : Int) (sri : StudyRecordAPIResponse) (sec : CoursewareSection)
    (h : sectionLookup course tbid sri.node_id sri.item_id = some sec) :
    parse_study_record_info course tbid sri =
      (updateSectionPages course tbid sri.node_id sri.item_id
        (fun pages => pages.map (fun pr =>
          (pr.1, setFlag pr.2 sri.pageStudyRecordDTOList))), true) ∧
    (∀ (r : Int) (old : Bool) (es : List PageStudyRecordDTO)
        (e : PageStudyRecordDTO),
      finalFlag r old (es ++ [e]) =
        if r = e.pageid then decide (e.complete ≠ 0)
        else finalFlag r old es) ∧
    (∀ (r : Int) (old : Bool) (es : List PageStudyRecordDTO),
      (∀ e ∈ es, r ≠ e.pageid) → finalFlag r old es = old) := by
  refine ⟨?_, finalFlag_append_last, finalFlag_of_no_match⟩
  unfold parse_study_record_info
  rw [h]
  have hfun : (fun pages => applyEntriesPages pages sri.pageStudyRecordDTOList) =
      (fun pages : List (Int × CoursewarePage) => pages.map (fun pr =>
        (pr.1, setFlag pr.2 sri.pageStudyRecordDTOList))) := by
    funext pages
    rw [applyEntriesPages_eq_map]
    exact List.map_congr_left
      (fun pr _ => by rw [foldl_applyEntry_eq_finalFlag])
  rw [hfun]

/-- Record carrying the same relation id twice: first with flag 1, then
with flag 0. -/
def sriDup : StudyRecordAPIResponse :=
  ⟨30, 20, [⟨1, 1⟩, ⟨1, 0⟩]⟩

/-- Counterexample to C1 as stated: in `demoCourse`, `pageA` has
`page_relation_id = 1`, and `sriDup` contains an entry with `pageid = 1`
and completion flag 1 — yet after `parse_study_record_info` the page's
`is_complete` is `false` (the later flag-0 duplicate wins). -/
theorem c1_counterexample :
    (∃ e ∈ sriDup.pageStudyRecordDTOList, e.pageid = 1 ∧ e.complete = 1) ∧
    (pageLookup (parse_study_record_info demoCourse 10 sriDup).1
        10 20 30 40).map (fun p => p.is_complete) = some false := by
  constructor
  · exact ⟨⟨1, 1⟩, by decide, by decide, by decide⟩
  · decide

theorem c1_parse_study_record_last_entry_wins_witness :
    sectionLookup demoCourse 10 sriDup.node_id sriDup.item_id =
      some demoSection ∧
    parse_study_record_info demoCourse 10 sriDup =
      (updateSectionPages demoCourse 10 sriDup.node_id sriDup.item_id
        (fun pages => pages.map (fun pr =>
          (pr.1, setFlag pr.2 sriDup.pageStudyRecordDTOList))), true) :=
  ⟨by decide,
   (c1_parse_study_record_last_entry_wins demoCourse 10 sriDup demoSection
     (by decide)).1⟩

/-- Truncation toward zero, the semantics of Python `int()` on a float,
with floats modelled exactly as rationals. -/
def pyInt (q : Rat) : Int := if q < 0 then ⌈q⌉ else ⌊q⌋

/-- Question entry of a chapter-detail response
(`ChapterInfoAPIResponse...QuestionPageDTO.QuestionDTO`): the remote score
is a float. -/
structure RespQuestion where
  questionid : Int
  score : Rat
  title : String
deriving DecidableEq

/-- Payload variants of a chapter-detail element, mirroring which pydantic
DTO class an element was validated into (`DocumentPageDTO`,
`ContentPageDTO`, `VideoPageDTO`, `QuestionPageDTO`); `isinstance` checks
in the source become variant tests. -/
inductive RespElementData where
  | documentData (content : String)
  | contentData (content : String)
  | videoData (resourceid : Int) (videoLength : Int)
  | questionData (questions : List RespQuestion)
deriving DecidableEq

def RespElementData.isDocument : RespElementData → Bool
  | .documentData _ => true
  | _ => false

def RespElementData.isContent : RespElementData → Bool
  | .contentData _ => true
  | _ => false

def RespElementData.isVideo : RespElementData → Bool
  | .videoData _ _ => true
  | _ => false

def RespElementData.isQuestion : RespElementData → Bool
  | .questionData _ => true
  | _ => false

/-- Chapter-detail element (`coursepageDTOList` entry): the remote `type`
code (6 question, 4 video, 10 document, 12 content — the base class
declares it a plain int) together with the payload. -/
structure CoursepageDTO where
  type : Int
  data : RespElementData
deriving DecidableEq

/-- Chapter-detail page (`WholePageDTO`): page id, relation id, name
(`content`), content type and its elements. -/
structure WholepageDTO where
  id : Int
  relationid : Int
  content : String
  contentType : Int
  coursepageDTOList : List CoursepageDTO
deriving DecidableEq

/-- Chapter-detail section (`ItemDTO`). -/
structure ItemDTO where
  itemid : Int
  wholepageDTOList : List WholepageDTO
deriving DecidableEq

/-- Chapter-detail response (`ChapterInfoAPIResponse`). -/
structure ChapterInfoAPIResponse where
  chapterid : Int
  wholepageItemDTOList : List ItemDTO
deriving DecidableEq

/-- Outcome of the per-element dispatch in
`DataManager.parse_chapter_info`: an element is either stored as a tree
`Element`, dropped with a `logger.warning` (the content-type-5 `else`
branch, recording the unknown type code), or skipped silently (the bare
`continue` under content types 6 and 7 and the absent branch for unknown
content types). -/
inductive ClassifyResult where
  | store (e : Element)
  | dropWarn (t : Int)
  | dropSilent
deriving DecidableEq

/-- Conversion of a response question to the stored question model:
`int(score)` truncates the float score; the answer list starts empty. -/
def convertQuestion (q : RespQuestion) : ElementQuestionQuestion :=
  ⟨q.questionid, pyInt q.score, q.title, []⟩

/-- Per-element dispatch of `DataManager.parse_chapter_info` (lines
166-236): content type 5 accepts `type == 10` document and `type == 12`
content elements and warns otherwise; content type 6 accepts any
video-class element (isinstance check only); content type 7 accepts any
question-class element; any other content type falls through every branch
and the element is ignored. -/
def classifyElement (page_content_type : Int) (e : CoursepageDTO) :
    ClassifyResult :=
  if page_content_type = 5 then
    match e.data with
    | .documentData c =>
      if e.type = 10 then .store (.documen ⟨c⟩) else .dropWarn e.type
    | .contentData c =>
      if e.type = 12 then .store (.content ⟨c⟩) else .dropWarn e.type
    | _ => .dropWarn e.type
  else if page_content_type = 6 then
    match e.data with
    | .videoData rid len => .store (.video ⟨rid, len⟩)
    | _ => .dropSilent
  else if page_content_type = 7 then
    match e.data with
    | .questionData qs => .store (.question ⟨qs.map convertQuestion⟩)
    | _ => .dropSilent
  else .dropSilent

def ClassifyResult.storedElement : ClassifyResult → Option Element
  | .store e => some e
  | _ => none

def ClassifyResult.isStored : ClassifyResult → Bool
  | .store _ => true
  | _ => false

def ClassifyResult.isWarned : ClassifyResult → Bool
  | .dropWarn _ => true
  | _ => false

/-- Elements of one response page that survive classification, in order. -/
def mergedElements (ct : Int) (els : List CoursepageDTO) : List Element :=
  els.filterMap (fun e => (classifyElement ct e).storedElement)

/-- Appending the surviving elements of a response page onto the stored
page's element list (the source appends, it never clears). -/
def appendElements (p : CoursewarePage) (ct : Int)
    (els : List CoursepageDTO) : CoursewarePage :=
  { p with elements := p.elements ++ mergedElements ct els }

/-- Page loop of `parse_chapter_info` inside one section: indexing
`pages[page_id]` for a page id absent from the tree raises `KeyError`,
which aborts the whole parse; the partially merged section is kept (the
source mutates in place) and the function will return `False`. -/
def mergePagesIntoSection (sec : CoursewareSection) :
    List WholepageDTO → CoursewareSection × Bool
  | [] => (sec, true)
  | pg :: rest =>
    match dictLookup sec.pages pg.id with
    | none => (sec, false)
    | some _ =>
      let pages2 := dictUpdate sec.pages pg.id
        (fun p => appendElements p pg.contentType pg.coursepageDTOList)
      mergePagesIntoSection { sec with pages := pages2 } rest

/-- Section loop of `parse_chapter_info`: a section id absent from the
tree is skipped with `continue`; a `KeyError` below propagates out,
keeping the partial updates. -/
def mergeItems (sections : List (Int × CoursewareSection)) :
    List ItemDTO → List (Int × CoursewareSection) × Bool
  | [] => (sections, true)
  | it :: rest =>
    match dictLookup sections it.itemid with
    | none => mergeItems sections rest
    | some sec =>
      let merged := mergePagesIntoSection sec it.wholepageDTOList
      let sections2 := dictUpdate sections it.itemid (fun _ => merged.1)
      if merged.2 then mergeItems sections2 rest else (sections2, false)

/-- Functional rendering of mutating one chapter's section dict in
place. -/
def updateChapterSections (course : ModelCourse) (tbid cid : Int)
    (secs : List (Int × CoursewareSection)) : ModelCourse :=
  { course with textbooks :=
      dictUpdate course.textbooks tbid (fun tb =>
        { tb with chapters :=
            dictUpdate tb.chapters cid (fun ch =>
              { ch with sections := secs }) }) }

/-- Embedding of `DataManager.parse_chapter_info`: textbook and chapter
lookups happen before any mutation (`KeyError` there returns `False` with
the tree untouched), then the section/page/element loops run.  The `Bool`
is the Python return value. -/
def parse_chapter_info (course : ModelCourse) (textbook_id : Int)
    (ci : ChapterInfoAPIResponse) : ModelCourse × Bool :=
  match dictLookup course.textbooks textbook_id with
  | none => (course, false)
  | some tb =>
    match dictLookup tb.chapters ci.chapterid with
    | none => (course, false)
    | some ch =>
      let merged := mergeItems ch.sections ci.wholepageItemDTOList
      (updateChapterSections course textbook_id ci.chapterid merged.1,
        merged.2)

/-- Chapter detail used for the type-99 scenario: it addresses
`demoCourse`'s chapter 20 / section 30 / page 40 (content type 5) and
carries a single element with unknown remote type code 99. -/
def ciType99 : ChapterInfoAPIResponse :=
  ⟨20, [⟨30, [⟨40, 1, "pageA", 5, [⟨99, .documentData "d"⟩]⟩]⟩]⟩

/-- C7 (amended): merging classifies each sub-element by its content type
and, under content type 5, the remote type code: 5 + 10 → Document,
5 + 12 → Content; under content types 6 and 7 the dispatch tests only the
element's class (variant), storing any video-class (table pair 6 + 4) or
question-class (table pair 7 + 6) element.  Mismatched elements under
content type 5 are dropped with a logged warning; mismatched elements
under content types 6 and 7 and all elements of unknown content types are
dropped silently.  Dropping is not fatal: the type-99 scenario merge
returns the tree unchanged with result `True`, the element dropped with a
warning. -/
theorem c7_element_classification_table :
    (∀ c : String,
      classifyElement 5 ⟨10, .documentData c⟩ = .store (.documen ⟨c⟩)) ∧
    (∀ c : String,
      classifyElement 5 ⟨12, .contentData c⟩ = .store (.content ⟨c⟩)) ∧
    (∀ rid len : Int,
      classifyElement 6 ⟨4, .videoData rid len⟩ = .store (.video ⟨rid, len⟩)) ∧
    (∀ qs : List RespQuestion,
      classifyElement 7 ⟨6, .questionData qs⟩ =
        .store (.question ⟨qs.map convertQuestion⟩)) ∧
    (∀ e : CoursepageDTO,
      ¬(e.type = 10 ∧ e.data.isDocument = true) →
      ¬(e.type = 12 ∧ e.data.isContent = true) →
      classifyElement 5 e = .dropWarn e.type) ∧
    (∀ e : CoursepageDTO, e.data.isVideo = false →
      classifyElement 6 e = .dropSilent) ∧
    (∀ e : CoursepageDTO, e.data.isQuestion = false →
      classifyElement 7 e = .dropSilent) ∧
    (∀ (ct : Int) (e : CoursepageDTO), ct ≠ 5 → ct ≠ 6 → ct ≠ 7 →
      classifyElement ct e = .dropSilent) ∧
    (classifyElement 5 ⟨99, .documentData "d"⟩ = .dropWarn 99 ∧
      parse_chapter_info demoCourse 10 ciType99 = (demoCourse, true)) := by
  refine ⟨fun c => rfl, fun c => rfl, fun rid len => rfl, fun qs => rfl,
    ?_, ?_, ?_, ?_, by decide, by decide⟩
  · intro e h10 h12
    rcases e with ⟨t, d⟩
    cases d with
    | documentData c =>
      have ht : t ≠ 10 := by
        intro h
        exact h10 ⟨h, rfl⟩
      simp [classifyElement, ht]
    | contentData c =>
      have ht : t ≠ 12 := by
        intro h
        exact h12 ⟨h, rfl⟩
      simp [classifyElement, ht]
    | videoData rid len => simp [classifyElement]
    | questionData qs => simp [classifyElement]
  · intro e hv
    rcases e with ⟨t, d⟩
    cases d <;> simp_all [classifyElement, RespElementData.isVideo]
  · intro e hq
    rcases e with ⟨t, d⟩
    cases d <;> simp_all [classifyElement, RespElementData.isQuestion]
  · intro ct e h5 h6 h7
    simp [classifyElement, h5, h6, h7]

theorem c7_element_classification_table_witness :
    classifyElement 6 ⟨99, .contentData "x"⟩ = ClassifyResult.dropSilent ∧
    classifyElement 3 ⟨10, .documentData "x"⟩ = ClassifyResult.dropSilent :=
  ⟨(c7_element_classification_table).2.2.2.2.2.1 ⟨99, .contentData "x"⟩ rfl,
   (c7_element_classification_table).2.2.2.2.2.2.2.1 3 ⟨10, .documentData "x"⟩
     (by decide) (by decide) (by decide)⟩

/-- Counterexample to C7 as stated: the pair (content type 6, remote type
12) is not in the classification table, and the element is indeed dropped
(not stored) — but silently, with no logged warning, contradicting "every
unknown or mismatched pair is logged". -/
theorem c7_counterexample :
    (classifyElement 6 ⟨12, .contentData "x"⟩).isStored = false ∧
    (classifyElement 6 ⟨12, .contentData "x"⟩).isWarned = false := by
  decide

/-- C8: a study record or chapter detail referencing an identifier absent
from the local tree is a per-record reconciliation failure, never an
exception: `parse_study_record_info` returns `(tree unchanged, False)`
when the chapter/section path is missing; `parse_chapter_info` returns
`(tree unchanged, False)` when the textbook or chapter is missing; a
missing section in the detail is skipped and the remaining sections keep
processing; a missing page makes the parse return the partially merged
tree with `False` (the caller's batch over records continues either
way). -/
theorem c8_missing_identifier_nonfatal :
    (∀ (course : ModelCourse) (tbid : Int) (sri : StudyRecordAPIResponse),
      sectionLookup course tbid sri.node_id sri.item_id = none →
      parse_study_record_info course tbid sri = (course, false)) ∧
    (∀ (course : ModelCourse) (tbid : Int) (ci : ChapterInfoAPIResponse),
      dictLookup course.textbooks tbid = none →
      parse_chapter_info course tbid ci = (course, false)) ∧
    (∀ (course : ModelCourse) (tbid : Int) (ci : ChapterInfoAPIResponse)
        (tb : ModelTextbook),
      dictLookup course.textbooks tbid = some tb →
      dictLookup tb.chapters ci.chapterid = none →
      parse_chapter_info course tbid ci = (course, false)) ∧
    (∀ (secs : List (Int × CoursewareSection)) (it : ItemDTO)
        (rest : List ItemDTO),
      dictLookup secs it.itemid = none →
      mergeItems secs (it :: rest) = mergeItems secs rest) ∧
    (∀ (sec : CoursewareSection) (pg : WholepageDTO)
        (rest : List WholepageDTO),
      dictLookup sec.pages pg.id = none →
      mergePagesIntoSection sec (pg :: rest) = (sec, false)) := by
  refine ⟨?_, ?_, ?_, ?_, ?_⟩
  · intro course tbid sri h
    unfold parse_study_record_info
    rw [h]
  · intro course tbid ci h
    unfold parse_chapter_info
    rw [h]
  · intro course tbid ci tb h1 h2
    unfold parse_chapter_info
    simp only [h1, h2]
  · intro secs it rest h
    conv_lhs => rw [mergeItems]
    simp only [h]
  · intro sec pg rest h
    unfold mergePagesIntoSection
    rw [h]

theorem c8_missing_identifier_nonfatal_witness :
    sectionLookup demoCourse 99 sriDup.node_id sriDup.item_id = none ∧
    parse_study_record_info demoCourse 99 sriDup = (demoCourse, false) :=
  ⟨by decide,
   c8_missing_identifier_nonfatal.1 demoCourse 99 sriDup (by decide)⟩

theorem c10_prune_keeps_incomplete_pages_witness :
    pageLookup demoCourse 10 20 30 40 = some pageA ∧
    pageA.is_complete = false ∧
    pageLookup (demoCourse.prune true) 10 20 30 40 = some pageA :=
  ⟨by decide, by decide,
   c10_prune_keeps_incomplete_pages demoCourse true 10 20 30 40 pageA
     (by decide) (by decide)⟩

/-- Outcome of one transport attempt inside `HttpClient.get`/`post`: a
response (abstracted to its status code), an `httpx.TransportError`, or
any other exception (the final `except` branch). -/
inductive HttpAttemptResult where
  | success (code : Nat)
  | transportError
  | otherError
deriving DecidableEq

/-- Observable behaviour of one `HttpClient.get`/`post` call: the value
returned to the caller (`None` on failure — the function never raises),
the number of transport attempts made, and the `asyncio.sleep` durations
(seconds) taken before each retry. -/
structure HttpCallTrace where
  response : Option Nat
  attempts : Nat
  sleeps : List Rat
deriving DecidableEq

/-- Embedding of `HttpClient.get` (lines 40-87): attempt the request; on a
transport error return `None` once `retry >= 3`, otherwise sleep 0.5s and
recurse with `retry + 1`; any other exception returns `None` immediately;
`att k` is the outcome of the attempt made at recursion depth `k`. -/
def httpGetTrace (att : Nat → HttpAttemptResult) (retry : Nat) :
    HttpCallTrace :=
  match att retry with
  | .success c => ⟨some c, 1, []⟩
  | .otherError => ⟨none, 1, []⟩
  | .transportError =>
    if retry ≥ 3 then ⟨none, 1, []⟩
    else
      let rest := httpGetTrace att (retry + 1)
      ⟨rest.response, rest.attempts + 1, (1 : Rat) / 2 :: rest.sleeps⟩
termination_by 4 - retry
decreasing_by omega

/-- Embedding of `HttpClient.post` (lines 89-155): identical retry
structure to `get`. -/
def httpPostTrace (att : Nat → HttpAttemptResult) (retry : Nat) :
    HttpCallTrace :=
  match att retry with
  | .success c => ⟨some c, 1, []⟩
  | .otherError => ⟨none, 1, []⟩
  | .transportError =>
    if retry ≥ 3 then ⟨none, 1, []⟩
    else
      let rest := httpPostTrace att (retry + 1)
      ⟨rest.response, rest.attempts + 1, (1 : Rat) / 2 :: rest.sleeps⟩
termination_by 4 - retry
decreasing_by omega

/-- C2: a `get` or `post` call whose transport attempts fail four times in
a row returns the failure value `None` after exactly 3 retries (4 total
attempts) with a fixed 0.5s delay before each retry, and never raises (the
embedding is a total function into a trace whose `response` is the value
handed to the caller). -/
theorem c2_http_retry_ceiling (att : Nat → HttpAttemptResult)
    (h : ∀ k, k ≤ 3 → att k = .transportError) :
    httpGetTrace att 0 =
      ⟨none, 4, [(1 : Rat) / 2, (1 : Rat) / 2, (1 : Rat) / 2]⟩ ∧
    httpPostTrace att 0 =
      ⟨none, 4, [(1 : Rat) / 2, (1 : Rat) / 2, (1 : Rat) / 2]⟩ := by
  have g3 : httpGetTrace att 3 = ⟨none, 1, []⟩ := by
    rw [httpGetTrace, h 3 (by omega)]
    norm_num
  have g2 : httpGetTrace att 2 = ⟨none, 2, [(1 : Rat) / 2]⟩ := by
    rw [httpGetTrace, h 2 (by omega)]
    norm_num [g3]
  have g1 : httpGetTrace att 1 =
      ⟨none, 3, [(1 : Rat) / 2, (1 : Rat) / 2]⟩ := by
    rw [httpGetTrace, h 1 (by omega)]
    norm_num [g2]
  have g0 : httpGetTrace att 0 =
      ⟨none, 4, [(1 : Rat) / 2, (1 : Rat) / 2, (1 : Rat) / 2]⟩ := by
    rw [httpGetTrace, h 0 (by omega)]
    norm_num [g1]
  have p3 : httpPostTrace att 3 = ⟨none, 1, []⟩ := by
    rw [httpPostTrace, h 3 (by omega)]
    norm_num
  have p2 : httpPostTrace att 2 = ⟨none, 2, [(1 : Rat) / 2]⟩ := by
    rw [httpPostTrace, h 2 (by omega)]
    norm_num [p3]
  have p1 : httpPostTrace att 1 =
      ⟨none, 3, [(1 : Rat) / 2, (1 : Rat) / 2]⟩ := by
    rw [httpPostTrace, h 1 (by omega)]
    norm_num [p2]
  have p0 : httpPostTrace att 0 =
      ⟨none, 4, [(1 : Rat) / 2, (1 : Rat) / 2, (1 : Rat) / 2]⟩ := by
    rw [httpPostTrace, h 0 (by omega)]
    norm_num [p1]
  exact ⟨g0, p0⟩

theorem c2_http_retry_ceiling_witness :
    httpGetTrace (fun _ => HttpAttemptResult.transportError) 0 =
      ⟨none, 4, [(1 : Rat) / 2, (1 : Rat) / 2, (1 : Rat) / 2]⟩ :=
  (c2_http_retry_ceiling (fun _ => HttpAttemptResult.transportError)
    (fun _ _ => rfl)).1

/-- How the report-submission loop for one Section ends: request
construction failed (skip), retries exhausted (skip and move on), or the
submission was acknowledged. -/
inductive SyncLoopOutcome where
  | buildFailSkip
  | retryExhaustSkip
  | reported
deriving DecidableEq

/-- Observable behaviour of the report-submission loop: its outcome, the
number of `sync_study_record` attempts, and the `asyncio.sleep` durations
(seconds) between attempts. -/
structure SyncLoopTrace where
  outcome : SyncLoopOutcome
  syncAttempts : Nat
  sleeps : List Rat
deriving DecidableEq

/-- Embedding of the per-section report loop of
`CoursewareManager.__start_courseware` (lines 644-686): build the request
(`build k` is whether construction succeeds on iteration `k`; failure
breaks out), submit (`sync k` is whether the submission succeeds), then —
before even inspecting the submission result — break out when
`retry >= 3`; otherwise a failed submission sleeps 1s and loops with
`retry + 1`. -/
def coursewareSyncLoop (build sync : Nat → Bool) (retry : Nat) :
    SyncLoopTrace :=
  if build retry = false then ⟨.buildFailSkip, 0, []⟩
  else if retry ≥ 3 then ⟨.retryExhaustSkip, 1, []⟩
  else if sync retry then ⟨.reported, 1, []⟩
  else
    let rest := coursewareSyncLoop build sync (retry + 1)
    ⟨rest.outcome, rest.syncAttempts + 1, (1 : Rat) :: rest.sleeps⟩
termination_by 4 - retry
decreasing_by omega

theorem coursewareSyncLoop_attempts_le (b s : Nat → Bool) :
    ∀ (n retry : Nat), 4 - retry ≤ n →
      (coursewareSyncLoop b s retry).syncAttempts ≤ max (4 - retry) 1 := by
  intro n
  induction n with
  | zero =>
    intro retry h
    have h3 : retry ≥ 3 := by omega
    rw [coursewareSyncLoop]
    by_cases hb : b retry = false
    · simp [hb]
    · simp [hb, h3]
  | succ n ih =>
    intro retry h
    rw [coursewareSyncLoop]
    by_cases hb : b retry = false
    · simp [hb]
    by_cases h3 : retry ≥ 3
    · simp [hb, h3]
    by_cases hs : s retry = true
    · simp [hb, h3, hs]
    · have hrec := ih (retry + 1) (by omega)
      simp [hb, h3, hs]
      omega

theorem coursewareSyncLoop_all_fail (b s : Nat → Bool)
    (hb : ∀ k, b k = true) (hs : ∀ k, s k = false) :
    ∀ (n retry : Nat), 3 - retry ≤ n → retry ≤ 3 →
      coursewareSyncLoop b s retry =
        ⟨.retryExhaustSkip, 4 - retry, List.replicate (3 - retry) 1⟩ := by
  intro n
  induction n with
  | zero =>
    intro retry h hr
    have h3 : retry = 3 := by omega
    subst h3
    rw [coursewareSyncLoop]
    simp [hb 3]
  | succ n ih =>
    intro retry h hr
    by_cases h3 : retry = 3
    · subst h3
      rw [coursewareSyncLoop]
      simp [hb 3]
    · have hlt : retry < 3 := by omega
      rw [coursewareSyncLoop]
      have hrec := ih (retry + 1) (by omega) (by omega)
      simp only [hb retry, hs retry, hrec]
      have h1 : ¬(retry ≥ 3) := by omega
      have h2 : ¬(true = false) := by simp
      simp only [if_neg h2, if_neg h1, if_neg (by simp : ¬false = true)]
      have ha : 4 - (retry + 1) + 1 = 4 - retry := by omega
      have hb2 : (1 : Rat) :: List.replicate (3 - (retry + 1)) 1 =
          List.replicate (3 - retry) 1 := by
        have : 3 - retry = (3 - (retry + 1)) + 1 := by omega
        rw [this, List.replicate_succ]
      rw [ha, hb2]

/-- C6 (amended): the report-submission loop makes at most 4 submission
attempts (one initial attempt plus up to 3 retries, `retry >= 3` being
checked only after the fourth submission has already been made) with a
fixed 1s delay between consecutive attempts; when every submission fails
it makes exactly 4 attempts and then logs and moves on to the next Section
(`retryExhaustSkip`), never aborting the run. -/
theorem c6_report_retry_four_attempts :
    (∀ b s : Nat → Bool, (coursewareSyncLoop b s 0).syncAttempts ≤ 4) ∧
    (∀ b s : Nat → Bool, (∀ k, b k = true) → (∀ k, s k = false) →
      coursewareSyncLoop b s 0 =
        ⟨.retryExhaustSkip, 4, [(1 : Rat), 1, 1]⟩) := by
  constructor
  · intro b s
    have h := coursewareSyncLoop_attempts_le b s 4 0 (by omega)
    have hm : max (4 - 0) 1 = 4 := by norm_num
    rw [hm] at h
    exact h
  · intro b s hb hs
    exact coursewareSyncLoop_all_fail b s hb hs 3 0 (by omega) (by omega)

theorem c6_report_retry_four_attempts_witness :
    coursewareSyncLoop (fun _ => true) (fun _ => false) 0 =
      ⟨SyncLoopOutcome.retryExhaustSkip, 4, [(1 : Rat), 1, 1]⟩ :=
  c6_report_retry_four_attempts.2 (fun _ => true) (fun _ => false)
    (fun _ => rfl) (fun _ => rfl)

/-- Counterexample to C6 as stated: with every submission failing, the
loop performs 4 submission attempts, not at most 3. -/
theorem c6_counterexample :
    (coursewareSyncLoop (fun _ => true) (fun _ => false) 0).syncAttempts = 4 ∧
    ¬((coursewareSyncLoop (fun _ => true) (fun _ => false) 0).syncAttempts
        ≤ 3) := by
  have h := coursewareSyncLoop_all_fail (fun _ => true) (fun _ => false)
    (fun _ => rfl) (fun _ => rfl) 3 0 (by omega) (by omega)
  rw [h]
  exact ⟨rfl, by decide⟩

/-- Study-time range (`ConfigModel.StudyTime.MinMaxTime`; source defaults
180/360). -/
structure MinMaxTime where
  min : Int
  max : Int
deriving DecidableEq

/-- Study-time configuration (`ConfigModel.StudyTime`): one range per
content bucket. -/
structure StudyTime where
  question : MinMaxTime
  document : MinMaxTime
  content : MinMaxTime
deriving DecidableEq

/-- Source default study-time configuration. -/
def defaultSTC : StudyTime := ⟨⟨180, 360⟩, ⟨180, 360⟩, ⟨180, 360⟩⟩

/-- Abstract ambient randomness and clock: `randIntF a b k` is the value
`random.randint(a, b)` returns at tick `k`, `uniformF a b k` is
`random.uniform(a, b)`, `nowF k` is `time.time()`; the builder consumes one
tick per call. -/
structure RandOracle where
  randIntF : Int → Int → Nat → Int
  uniformF : Rat → Rat → Nat → Rat
  nowF : Nat → Rat

/-- Contracts of the Python library calls: `randint a b ∈ [a, b]` whenever
`a ≤ b` (otherwise it raises `ValueError`), `uniform a b ∈ [a, b]`, and
`time.time()` is nonnegative. -/
def RandOracle.Valid (o : RandOracle) : Prop :=
  (∀ (a b : Int) (k : Nat), a ≤ b →
    a ≤ o.randIntF a b k ∧ o.randIntF a b k ≤ b) ∧
  (∀ (a b : Rat) (k : Nat), a ≤ b →
    a ≤ o.uniformF a b k ∧ o.uniformF a b k ≤ b) ∧
  (∀ k : Nat, 0 ≤ o.nowF k)

/-- Watch-span entry of a video record
(`SyncStudyRecordAPIRequest...VideoDTO.StartEndTime`). -/
structure StartEndTime where
  startTime : Int
  endTime : Int
deriving DecidableEq

/-- Video record of a sync request (`...PageStudyRecordDTO.VideoDTO`):
`current`, `recordTime` and `time` are floats in the source. -/
structure VideoDTO where
  videoid : Int
  current : Rat
  recordTime : Rat
  time : Rat
  startEndTimeList : List StartEndTime
deriving DecidableEq

/-- Question record of a sync request
(`...PageStudyRecordDTO.QuestionDTO`). -/
structure QuestionDTO where
  questionid : Int
  answerList : List String
  score : Int
deriving DecidableEq

/-- Per-page record of a sync request
(`SyncStudyRecordAPIRequest.PageStudyRecordDTO`; constant-valued fields
such as `complete = 1` are omitted). -/
structure ReqPageStudyRecordDTO where
  pageid : Int
  studyTime : Int
  score : Int
  coursepageId : Option Int
  videos : List VideoDTO
  questions : List QuestionDTO
deriving DecidableEq

/-- Sync request (`SyncStudyRecordAPIRequest`; constant-valued fields
omitted). -/
structure SyncStudyRecordAPIRequest where
  itemid : Int
  studyStartTime : Int
  userName : String
  pageStudyRecordDTOList : List ReqPageStudyRecordDTO
deriving DecidableEq

/-- One video record as built in the content-type-6 branch:
`video_start_time = time.time()` (tick `k`), then
`video_watch_time = video_length - random.uniform(2, 8)` (tick `k + 1`);
`current = recordTime = watch`, `time = video_length`, and one
start/end pair `int(start), int(start + watch)`. -/
def mkVideoDTO (o : RandOracle) (k : Nat) (v : ElementVideo) : VideoDTO :=
  let t := o.nowF k
  let w := (v.video_length : Rat) - o.uniformF 2 8 (k + 1)
  ⟨v.video_id, w, w, (v.video_length : Rat), [⟨pyInt t, pyInt (t + w)⟩]⟩

/-- Video loop of the content-type-6 branch: non-video elements are
skipped; each video element consumes two oracle ticks, contributes its
`video_length` to the page study time and emits one `VideoDTO`.  Returns
(records, accumulated study time, next tick). -/
def buildVideoRecords (o : RandOracle) :
    List Element → Nat → List VideoDTO × Int × Nat
  | [], k => ([], 0, k)
  | .video v :: rest, k =>
    let dto := mkVideoDTO o k v
    let r := buildVideoRecords o rest (k + 2)
    (dto :: r.1, v.video_length + r.2.1, r.2.2)
  | _ :: rest, k => buildVideoRecords o rest k

/-- Question records of the content-type-7 branch, in element order. -/
def questionRecords : List Element → List QuestionDTO
  | [] => []
  | .question q :: rest =>
    q.questions.map
      (fun qq => ⟨qq.question_id, qq.question_answer_list,
        qq.question_score⟩) ++ questionRecords rest
  | _ :: rest => questionRecords rest

/-- Page score accumulated in the content-type-7 branch: the sum of the
question scores. -/
def sumQuestionScores : List Element → Int
  | [] => 0
  | .question q :: rest =>
    (q.questions.map (fun qq => qq.question_score)).sum +
      sumQuestionScores rest
  | _ :: rest => sumQuestionScores rest

/-- Study time accumulated in the content-type-6 branch: the sum of the
video lengths over the page's video elements. -/
def sumVideoLengths : List Element → Int
  | [] => 0
  | .video v :: rest => v.video_length + sumVideoLengths rest
  | _ :: rest => sumVideoLengths rest

/-- Id/length pairs of the video elements, in order. -/
def videoIdLengthPairs : List Element → List (Int × Int)
  | [] => []
  | .video v :: rest => (v.video_id, v.video_length) :: videoIdLengthPairs rest
  | _ :: rest => videoIdLengthPairs rest

/-- Bucket choice of the content-type-5 branch: the Document range when
any `ElementDocumen` is present among the page's elements, otherwise the
Content range. -/
def elementsHaveDocument (els : List Element) : Bool :=
  els.any (fun e => match e with | .documen _ => true | _ => false)

def pageBucket (stc : StudyTime) (p : CoursewarePage) : MinMaxTime :=
  if elementsHaveDocument p.elements then stc.document else stc.content

/-- Body of the per-page loop of
`DataManager.build_sync_study_record_request` (lines 333-489): on the
first pass everything stays zeroed; on the second pass content type 5
draws one `randint` from the matching bucket and clamps
`draw * element_count` at 3600, content type 6 runs the video loop,
content type 7 draws one clamped `randint` and collects question records
(`coursepageId` is set to the page id exactly when question records are
present), and an unknown content type skips the page (`continue` — no
record is appended).  Returns the record (if any) and the next oracle
tick.  The Python `ValueError` when a configured `min` exceeds `max`
(which would make the whole builder return `None`) is outside this model;
the theorems assume `min ≤ max`. -/
def buildPageRecord (o : RandOracle) (stc : StudyTime) (is_first : Bool)
    (k : Nat) (page_id : Int) (p : CoursewarePage) :
    Option ReqPageStudyRecordDTO × Nat :=
  if is_first then
    (some ⟨p.page_relation_id, 0, 0, none, [], []⟩, k)
  else if p.page_content_type = 5 then
    let bucket := pageBucket stc p
    let st := min (o.randIntF bucket.min bucket.max k *
      (p.elements.length : Int)) 3600
    (some ⟨p.page_relation_id, st, 100, none, [], []⟩, k + 1)
  else if p.page_content_type = 6 then
    let r := buildVideoRecords o p.elements k
    (some ⟨p.page_relation_id, r.2.1, 100, none, r.1, []⟩, r.2.2)
  else if p.page_content_type = 7 then
    let st := min (o.randIntF stc.question.min stc.question.max k) 3600
    let qs := questionRecords p.elements
    let sc := sumQuestionScores p.elements
    (some ⟨p.page_relation_id, st, sc,
      if qs.isEmpty then none else some page_id, [], qs⟩, k + 1)
  else (none, k)

/-- Page loop of the builder, threading the oracle tick. -/
def buildPageRecords (o : RandOracle) (stc : StudyTime) (is_first : Bool) :
    List (Int × CoursewarePage) → Nat → List ReqPageStudyRecordDTO × Nat
  | [], k => ([], k)
  | (pid, p) :: rest, k =>
    let r := buildPageRecord o stc is_first k pid p
    let rs := buildPageRecords o stc is_first rest r.2
    match r.1 with
    | some dto => (dto :: rs.1, rs.2)
    | none => rs

/-- Embedding of `DataManager.build_sync_study_record_request`: the
request carries the section id, the session start timestamp, the user's
name, and the per-page records. -/
def build_sync_study_record_request (o : RandOracle)
    (study_start_time : Int) (section_info : CoursewareSection)
    (userName : String) (stc : StudyTime) (is_first : Bool) :
    SyncStudyRecordAPIRequest :=
  ⟨section_info.section_id, study_start_time, userName,
    (buildPageRecords o stc is_first section_info.pages 0).1⟩

/-- C9: with `isFirstPass = true` every page — whatever its content type —
yields a record with `studyTime = 0`, score 0, no video or question
records and no `coursepageId`, the oracle tick is not advanced (no
simulation runs), and the whole request's record list is exactly one such
zero record per page of the section. -/
theorem c9_first_pass_zero_study_time :
    (∀ (o : RandOracle) (stc : StudyTime) (k : Nat) (pid : Int)
        (p : CoursewarePage),
      buildPageRecord o stc true k pid p =
        (some ⟨p.page_relation_id, 0, 0, none, [], []⟩, k)) ∧
    (∀ (o : RandOracle) (stc : StudyTime) (t : Int)
        (sec : CoursewareSection) (u : String),
      (build_sync_study_record_request o t sec u stc true).pageStudyRecordDTOList =
        sec.pages.map (fun pr => ⟨pr.2.page_relation_id, 0, 0, none, [], []⟩)) := by
  constructor
  · intro o stc k pid p
    rfl
  · intro o stc t sec u
    show (buildPageRecords o stc true sec.pages 0).1 = _
    generalize 0 = k
    induction sec.pages generalizing k with
    | nil => rfl
    | cons pr rest ih =>
      rcases pr with ⟨pid, p⟩
      simp only [buildPageRecords, buildPageRecord, if_pos, List.map_cons]
      rw [ih]

/-- Deterministic oracle used by witnesses: every draw returns the lower
bound, the clock reads 0. -/
def demoOracle : RandOracle :=
  ⟨fun a _ _ => a, fun a _ _ => a, fun _ => 0⟩

theorem demoOracle_valid : demoOracle.Valid :=
  ⟨fun a _ _ h => ⟨le_refl a, h⟩,
   fun a _ _ h => ⟨le_refl a, h⟩,
   fun _ => le_refl 0⟩

/-- C3 (amended): on the second pass, a content-type-5 page with `n`
elements draws once from the matching bucket and reports
`studyTime = min(draw * n, 3600)`, so the duration lies in
`[min(minT*n, 3600), min(maxT*n, 3600)]` and the score is 100.  The
original lower bound `minT*n` fails once `minT*n > 3600`. -/
theorem c3_doc_content_duration_bounds (o : RandOracle) (stc : StudyTime)
    (k : Nat) (pid : Int) (p : CoursewarePage) (hv : o.Valid)
    (hct : p.page_content_type = 5)
    (hmm : (pageBucket stc p).min ≤ (pageBucket stc p).max) :
    ∃ dto, buildPageRecord o stc false k pid p = (some dto, k + 1) ∧
      dto.score = 100 ∧
      min ((pageBucket stc p).min * (p.elements.length : Int)) 3600 ≤
        dto.studyTime ∧
      dto.studyTime ≤
        min ((pageBucket stc p).max * (p.elements.length : Int)) 3600 ∧
      dto.pageid = p.page_relation_id := by
  obtain ⟨hr1, hr2⟩ :=
    hv.1 (pageBucket stc p).min (pageBucket stc p).max k hmm
  have hn : (0 : Int) ≤ (p.elements.length : Int) := Int.ofNat_nonneg _
  refine ⟨⟨p.page_relation_id,
    min (o.randIntF (pageBucket stc p).min (pageBucket stc p).max k *
      (p.elements.length : Int)) 3600, 100, none, [], []⟩, ?_, rfl, ?_, ?_, rfl⟩
  · unfold buildPageRecord
    simp [hct]
  · exact min_le_min (mul_le_mul_of_nonneg_right hr1 hn) (le_refl 3600)
  · exact min_le_min (mul_le_mul_of_nonneg_right hr2 hn) (le_refl 3600)

/-- Content-type-5 page with 21 document elements (source default bounds
make `minT * n = 3780 > 3600`). -/
def pageC3 : CoursewarePage :=
  ⟨50, 5, "doc21", 5, false, List.replicate 21 (.documen ⟨""⟩)⟩

/-- Counterexample to C3 as stated: with the default configuration
(`minT = 180`) and 21 elements, the lowest possible draw already clamps
to 3600, which is strictly below the claimed lower bound
`minT * n = 3780`, so the claimed interval `[3780, 3600]` is missed (it is
even empty). -/
theorem c3_counterexample :
    pageC3.page_content_type = 5 ∧
    pageC3.elements.length = 21 ∧
    (pageBucket defaultSTC pageC3).min = 180 ∧
    ((buildPageRecord demoOracle defaultSTC false 0 50 pageC3).1.map
      (fun dto => dto.studyTime)) = some 3600 ∧
    ¬((pageBucket defaultSTC pageC3).min * (pageC3.elements.length : Int) ≤
      3600) := by
  refine ⟨rfl, by decide, by decide, by decide, by decide⟩

theorem c3_doc_content_duration_bounds_witness :
    pageA.page_content_type = 5 ∧
    (pageBucket defaultSTC pageA).min ≤ (pageBucket defaultSTC pageA).max ∧
    (∃ dto, buildPageRecord demoOracle defaultSTC false 0 40 pageA =
        (some dto, 0 + 1) ∧
      dto.score = 100 ∧
      min ((pageBucket defaultSTC pageA).min * (pageA.elements.length : Int))
        3600 ≤ dto.studyTime ∧
      dto.studyTime ≤
        min ((pageBucket defaultSTC pageA).max *
          (pageA.elements.length : Int)) 3600 ∧
      dto.pageid = pageA.page_relation_id) :=
  ⟨by decide, by decide,
   c3_doc_content_duration_bounds demoOracle defaultSTC 0 40 pageA
     demoOracle_valid (by decide) (by decide)⟩

theorem pyInt_floor_diff (t w : Rat) (ht : 0 ≤ t) (hw : 0 ≤ w) :
    pyInt (t + w) - pyInt t = ⌊w⌋ ∨ pyInt (t + w) - pyInt t = ⌊w⌋ + 1 := by
  have h1 : pyInt t = ⌊t⌋ := if_neg (not_lt.mpr ht)
  have h2 : pyInt (t + w) = ⌊t + w⌋ := if_neg (not_lt.mpr (add_nonneg ht hw))
  rw [h1, h2]
  have low : ⌊t⌋ + ⌊w⌋ ≤ ⌊t + w⌋ := by
    apply Int.le_floor.mpr
    push_cast
    exact add_le_add (Int.floor_le t) (Int.floor_le w)
  have high : ⌊t + w⌋ < ⌊t⌋ + ⌊w⌋ + 2 := by
    apply Int.floor_lt.mpr
    push_cast
    have ht2 := Int.lt_floor_add_one t
    have hw2 := Int.lt_floor_add_one w
    linarith
  omega

theorem buildVideoRecords_studyTime (o : RandOracle) :
    ∀ (els : List Element) (k : Nat),
      (buildVideoRecords o els k).2.1 = sumVideoLengths els := by
  intro els
  induction els with
  | nil => intro k; rfl
  | cons e rest ih =>
    intro k
    cases e with
    | video v => simp [buildVideoRecords, sumVideoLengths, ih]
    | question q => simp [buildVideoRecords, sumVideoLengths, ih]
    | documen d => simp [buildVideoRecords, sumVideoLengths, ih]
    | content c => simp [buildVideoRecords, sumVideoLengths, ih]

theorem buildVideoRecords_pairs (o : RandOracle) :
    ∀ (els : List Element) (k : Nat),
      ((buildVideoRecords o els k).1).map (fun v => (v.videoid, v.time)) =
        (videoIdLengthPairs els).map (fun pr => (pr.1, (pr.2 : Rat))) := by
  intro els
  induction els with
  | nil => intro k; rfl
  | cons e rest ih =>
    intro k
    cases e with
    | video v =>
      simp [buildVideoRecords, videoIdLengthPairs, ih, mkVideoDTO]
    | question q => simp [buildVideoRecords, videoIdLengthPairs, ih]
    | documen d => simp [buildVideoRecords, videoIdLengthPairs, ih]
    | content c => simp [buildVideoRecords, videoIdLengthPairs, ih]

theorem buildVideoRecords_mem (o : RandOracle) (hv : o.Valid) :
    ∀ (els : List Element) (k : Nat),
      ∀ v ∈ (buildVideoRecords o els k).1,
        v.current = v.recordTime ∧
        v.time - 8 ≤ v.current ∧ v.current ≤ v.time - 2 ∧
        ∃ st, v.startEndTimeList = [st] ∧
          (0 ≤ v.current →
            (st.endTime - st.startTime = ⌊v.current⌋ ∨
             st.endTime - st.startTime = ⌊v.current⌋ + 1)) := by
  intro els
  induction els with
  | nil => intro k v hm; simp [buildVideoRecords] at hm
  | cons e rest ih =>
    intro k v hm
    cases e with
    | video ev =>
      simp only [buildVideoRecords, List.mem_cons] at hm
      rcases hm with h | h
      · subst h
        obtain ⟨hu1, hu2⟩ := hv.2.1 2 8 (k + 1) (by norm_num)
        have ht0 := hv.2.2 k
        refine ⟨rfl, ?_, ?_, ⟨_, rfl, ?_⟩⟩
        · show (ev.video_length : Rat) - 8 ≤
            (ev.video_length : Rat) - o.uniformF 2 8 (k + 1)
          linarith
        · show (ev.video_length : Rat) - o.uniformF 2 8 (k + 1) ≤
            (ev.video_length : Rat) - 2
          linarith
        · intro hwpos
          exact pyInt_floor_diff (o.nowF k) _ ht0 hwpos
      · exact ih (k + 2) v h
    | question q => exact ih k v (by simpa [buildVideoRecords] using hm)
    | documen d => exact ih k v (by simpa [buildVideoRecords] using hm)
    | content c => exact ih k v (by simpa [buildVideoRecords] using hm)

/-- C4 (amended): on the second pass, a content-type-6 page reports score
100 and `studyTime` equal to the sum of its video elements' lengths, and
emits one video record per video element, in order, with
`current = recordTime = watchTime`, `time = video_length`,
`watchTime ∈ [L - 8, L - 2]`, and a single start/end pair whose
`endTimestamp - startTimestamp` equals `int(start + watchTime) -
int(start)`, which (for nonnegative watch times) is `⌊watchTime⌋` or
`⌊watchTime⌋ + 1` — not `round(watchTime)` in general. -/
theorem c4_video_watch_simulation (o : RandOracle) (stc : StudyTime)
    (k : Nat) (pid : Int) (p : CoursewarePage) (hv : o.Valid)
    (hct : p.page_content_type = 6) :
    ∃ dto k2, buildPageRecord o stc false k pid p = (some dto, k2) ∧
      dto.score = 100 ∧
      dto.studyTime = sumVideoLengths p.elements ∧
      dto.pageid = p.page_relation_id ∧
      dto.videos.map (fun v => (v.videoid, v.time)) =
        (videoIdLengthPairs p.elements).map (fun pr => (pr.1, (pr.2 : Rat))) ∧
      ∀ v ∈ dto.videos,
        v.current = v.recordTime ∧
        v.time - 8 ≤ v.current ∧ v.current ≤ v.time - 2 ∧
        ∃ st, v.startEndTimeList = [st] ∧
          (0 ≤ v.current →
            (st.endTime - st.startTime = ⌊v.current⌋ ∨
             st.endTime - st.startTime = ⌊v.current⌋ + 1)) := by
  have hct5 : p.page_content_type ≠ 5 := by rw [hct]; decide
  refine ⟨⟨p.page_relation_id, (buildVideoRecords o p.elements k).2.1, 100,
      none, (buildVideoRecords o p.elements k).1, []⟩,
    (buildVideoRecords o p.elements k).2.2, ?_, rfl, ?_, rfl, ?_, ?_⟩
  · unfold buildPageRecord
    simp [hct, hct5]
  · exact buildVideoRecords_studyTime o p.elements k
  · exact buildVideoRecords_pairs o p.elements k
  · exact buildVideoRecords_mem o hv p.elements k

/-- Oracle for the C4 counterexample: the clock reads 0.9 and the uniform
draw is 2.7 (a legitimate value in `[2, 8]`). -/
def cexOracleC4 : RandOracle :=
  ⟨fun a _ _ => a, fun _ _ _ => (27 : Rat) / 10, fun _ => (9 : Rat) / 10⟩

/-- Video page with one 600-second video. -/
def pageC4 : CoursewarePage := ⟨60, 6, "vid", 6, false, [.video ⟨70, 600⟩]⟩

/-- Counterexample to C4 as stated: with start time 0.9 and watch time
`600 - 2.7 = 597.3`, the emitted span is `int(598.2) - int(0.9) = 598`,
while `round(597.3) = 597`. -/
theorem c4_counterexample :
    (buildPageRecord cexOracleC4 defaultSTC false 0 60 pageC4).1 =
      some ⟨6, 600, 100, none,
        [⟨70, (5973 : Rat) / 10, (5973 : Rat) / 10, 600, [⟨0, 598⟩]⟩], []⟩ ∧
    round ((5973 : Rat) / 10) = 597 ∧
    ((598 : Int) - 0) ≠ 597 := by
  have h1 : pyInt ((9 : Rat) / 10) = 0 := by
    unfold pyInt
    rw [if_neg (by norm_num)]
    rw [Int.floor_eq_iff]
    constructor <;> norm_num
  have h2 : pyInt ((2991 : Rat) / 5) = 598 := by
    unfold pyInt
    rw [if_neg (by norm_num)]
    rw [Int.floor_eq_iff]
    constructor <;> norm_num
  refine ⟨?_, ?_, by norm_num⟩
  · simp only [buildPageRecord, pageC4, cexOracleC4, buildVideoRecords,
      mkVideoDTO, defaultSTC]
    norm_num [h1, h2]
  · rw [round_eq]
    have he : (5973 : Rat) / 10 + 1 / 2 = (2989 : Rat) / 5 := by norm_num
    rw [he, Int.floor_eq_iff]
    constructor <;> norm_num

theorem c4_video_watch_simulation_witness :
    pageC4.page_content_type = 6 ∧
    (∃ dto k2,
      buildPageRecord demoOracle defaultSTC false 0 60 pageC4 =
        (some dto, k2) ∧
      dto.score = 100 ∧
      dto.studyTime = sumVideoLengths pageC4.elements ∧
      dto.pageid = pageC4.page_relation_id ∧
      dto.videos.map (fun v => (v.videoid, v.time)) =
        (videoIdLengthPairs pageC4.elements).map
          (fun pr => (pr.1, (pr.2 : Rat))) ∧
      ∀ v ∈ dto.videos,
        v.current = v.recordTime ∧
        v.time - 8 ≤ v.current ∧ v.current ≤ v.time - 2 ∧
        ∃ st, v.startEndTimeList = [st] ∧
          (0 ≤ v.current →
            (st.endTime - st.startTime = ⌊v.current⌋ ∨
             st.endTime - st.startTime = ⌊v.current⌋ + 1))) :=
  ⟨rfl,
   c4_video_watch_simulation demoOracle defaultSTC 0 60 pageC4
     demoOracle_valid rfl⟩

end ULCW
